import Mathlib

/-!
Verification of the NYX RAG backend (`backend/app`): a shallow embedding of
the deduplication service (`app/services/deduplication.py`), the ingestion
pipeline (`app/services/ingestion.py`), the chat pipeline
(`app/services/chat.py`) and the HTTP route handlers (`app/api/routes.py`),
together with theorems settling the behavioural claims about dedup-gated
ingestion, the chat orchestration state machine, citation reconciliation,
session history, and the chunk-evidence endpoint.

External collaborators (the MD5 hash, the file loaders, the text splitter,
the embedding/index backend and the LLM generator) are modelled as explicit
parameters: the embedding quantifies over their outcomes, and instrumentation
counters record exactly where the source code invokes them (the "call-count
stub" of the spec's testable properties).
-/

namespace NyxRag

/-- Raw uploaded file content, a sequence of bytes. -/
abbrev Bytes := List Nat

/-- One row of the `processed_files` SQLite table kept by
`DeduplicationService`: `(content_hash, filename)`, with `content_hash`
the primary key. The table is modelled as the list of rows in insertion
order. -/
abbrev FingerprintStore := List (String × String)

/-- `DeduplicationService.is_duplicate`: membership query on the
`processed_files` table by `content_hash`. -/
def is_duplicate (store : FingerprintStore) (content_hash : String) : Bool :=
  store.any (fun row => row.1 = content_hash)

/-- `DeduplicationService.register_file`: inserts `(content_hash, filename)`;
on a primary-key violation (`sqlite3.IntegrityError`) the row already exists
and the insert is silently skipped (`except ... pass`). -/
def register_file (store : FingerprintStore) (content_hash filename : String) :
    FingerprintStore :=
  if store.any (fun row => row.1 = content_hash) then store
  else store ++ [(content_hash, filename)]

/-- A document fragment as produced by the external loaders
(`PyPDFLoader` / `TextLoader`) and by the text splitter: text plus the
optional 0-based `page` metadata (PDF pages have it, plain text does not). -/
structure PageDoc where
  page_content : String
  page : Option Nat
  deriving DecidableEq

/-- A chunk after `IngestionService.process_document` step D injects
metadata: owning document hash, filename, 0-based ordinal `chunk_id`,
the loader's raw `page`, and the display label `source`. -/
structure IndexedChunk where
  page_content : String
  file_hash : String
  filename : String
  chunk_id : Nat
  page : Option Nat
  source : String
  deriving DecidableEq

/-- Step D of `process_document`: for each chunk `i` set
`file_hash`, `filename`, `chunk_id = i`, and
`source = f"{filename} (Page {metadata.get('page', 0) + 1})"`. -/
def inject_metadata (file_hash filename : String) (chunks : List PageDoc) :
    List IndexedChunk :=
  chunks.enum.map (fun ic =>
    { page_content := ic.2.page_content
      file_hash := file_hash
      filename := filename
      chunk_id := ic.1
      page := ic.2.page
      source := filename ++ " (Page " ++ toString (ic.2.page.getD 0 + 1) ++ ")" })

/-- Call counters for the external collaborators of one ingestion request:
how many times the loader (`_load_file`), the splitter (`_chunk_documents`)
and the embedding / index-upsert batch (`QdrantVectorStore.from_documents`)
were invoked. This is the call-count stub the spec's deduplication
invariant is stated against. -/
structure Effects where
  extract_calls : Nat
  split_calls : Nat
  embed_calls : Nat
  index_writes : Nat
  deriving DecidableEq

/-- No external work performed. -/
def Effects.none : Effects := ⟨0, 0, 0, 0⟩

/-- Result of `IngestionService.process_document`: the returned dict is
either `{"status": "error", "message": ...}` (no text extracted) or
`{"status": "success", "chunks_created": n, "doc_id": hash}`; an index-write
failure is re-raised (`raise e`) and modelled as `exn`. -/
inductive ProcOutcome where
  | error (message : String)
  | success (chunks_created : Nat) (doc_id : String)
  | exn (e : String)
  deriving DecidableEq

/-- `IngestionService.process_document`, parameterised by the external
loader result `ext` (what `_load_file` yields for these bytes), the external
splitter `split` (`RecursiveCharacterTextSplitter.split_documents`), and
whether the embedding/index batch write succeeds (`index_ok`).
Mirrors the source: load; if no documents, return the error dict; split;
inject metadata; one batched embed-and-upsert call. Alongside the outcome it
returns the `Effects` counters recording which external calls ran. -/
def process_document (ext : Bytes → List PageDoc) (split : List PageDoc → List PageDoc)
    (index_ok : Bool) (content : Bytes) (filename file_hash : String) :
    ProcOutcome × Effects :=
  let documents := ext content
  if documents = [] then (.error "Could not extract text", ⟨1, 0, 0, 0⟩)
  else
    let chunks := split documents
    let stamped := inject_metadata file_hash filename chunks
    if index_ok then (.success stamped.length file_hash, ⟨1, 1, 1, 1⟩)
    else (.exn "index write failed", ⟨1, 1, 1, 1⟩)

/-- `DocumentMetadata` response model (`app/models/schemas.py`); the
`upload_date` field is `datetime.now()` at response time and is threaded in
as the `now` argument. -/
structure DocumentMetadata where
  filename : String
  content_hash : String
  upload_date : String
  doc_id : String
  chunk_count : Nat
  deriving DecidableEq

/-- `IngestionResponse` response model (`app/models/schemas.py`). -/
structure IngestionResponse where
  message : String
  status : String
  data : Option DocumentMetadata
  deriving DecidableEq

/-- An HTTP error response produced by raising `HTTPException`. -/
structure HttpError where
  status_code : Nat
  detail : String
  deriving DecidableEq

/-- The `POST /documents` handler `ingest_document` in `app/api/routes.py`:
hash the bytes; if `is_duplicate`, return the `skipped` response without
touching the pipeline; otherwise run `process_document`; an error status is
raised as `HTTPException(500, message)`, which the handler's own
`except Exception` clause catches and re-wraps as
`HTTPException(500, f"Internal Server Error: {str(e)}")` (Starlette renders
`str` of an `HTTPException` as `"{status_code}: {detail}"`); an index-write
exception propagates to the same clause; on success the fingerprint is
registered and the `processed` response returned.
Returns the HTTP outcome, the fingerprint store after the call, and the
external-call counters of the call. -/
def ingest_document (md5 : Bytes → String) (ext : Bytes → List PageDoc)
    (split : List PageDoc → List PageDoc) (index_ok : Bool) (now : String)
    (store : FingerprintStore) (filename : String) (content : Bytes) :
    Except HttpError IngestionResponse × FingerprintStore × Effects :=
  let file_hash := md5 content
  if is_duplicate store file_hash then
    (.ok { message := "Document \x27" ++ filename ++ "\x27 already exists. Skipping ingestion."
           status := "skipped"
           data := some { filename := filename, content_hash := file_hash,
                          upload_date := now, doc_id := file_hash, chunk_count := 0 } },
     store, Effects.none)
  else
    match process_document ext split index_ok content filename file_hash with
    | (.error msg, eff) =>
        (.error ⟨500, "Internal Server Error: 500: " ++ msg⟩, store, eff)
    | (.exn e, eff) =>
        (.error ⟨500, "Internal Server Error: " ++ e⟩, store, eff)
    | (.success n _, eff) =>
        let store2 := register_file store file_hash filename
        (.ok { message := "Document processed and indexed successfully."
               status := "processed"
               data := some { filename := filename, content_hash := file_hash,
                              upload_date := now, doc_id := file_hash, chunk_count := n } },
         store2, eff)

/-- One entry of a session's history list: the dicts
`{"role": "user" | "model", "content": text}` stored in `SESSION_HISTORY`. -/
structure Turn where
  role : String
  content : String
  deriving DecidableEq

/-- The process-wide `SESSION_HISTORY` dict, `session_id -> list of turns`,
modelled as an association list in insertion order (Python dicts preserve
insertion order; `find?` takes the first matching key, and keys are unique
under the operations below). -/
abbrev HistMap := List (String × List Turn)

/-- `SESSION_HISTORY.get(session_id, [])`. -/
def hist_get (h : HistMap) (session_id : String) : List Turn :=
  match h.find? (fun p => p.1 = session_id) with
  | some p => p.2
  | none => []

/-- `session_id in SESSION_HISTORY`. -/
def hist_has (h : HistMap) (session_id : String) : Bool :=
  h.any (fun p => p.1 = session_id)

/-- `ChatService._update_history`: create the session's list if absent, then
append the user turn and the model turn, in that order. -/
def update_history (h : HistMap) (session_id user_msg ai_msg : String) : HistMap :=
  let h1 := if hist_has h session_id then h else h ++ [(session_id, [])]
  h1.map (fun p =>
    if p.1 = session_id then
      (p.1, p.2 ++ [⟨"user", user_msg⟩, ⟨"model", ai_msg⟩])
    else p)

/-- The rendering loop of `ChatService._get_history_text`: each turn becomes
`"User: ..."` or `"Assistant: ..."` on its own line, accumulated in list
order. -/
def render_history (history : List Turn) : String :=
  history.foldl (fun acc msg =>
    acc ++ (if msg.role = "user" then "User" else "Assistant") ++ ": " ++ msg.content ++ "\n") ""

/-- Python `l[-5:]`: the last `n` elements (the whole list when shorter). -/
def lastN (n : Nat) (l : List α) : List α := l.drop (l.length - n)

/-- `ChatService._get_history_text`: render the last 5 stored turns of the
session (`SESSION_HISTORY.get(session_id, [])[-5:]`). -/
def get_history_text (h : HistMap) (session_id : String) : String :=
  render_history (lastN 5 (hist_get h session_id))

/-- A point returned by `similarity_search_with_score`: the stored chunk
text plus the metadata fields stamped at ingestion time. -/
structure RetrievedDoc where
  page_content : String
  file_hash : String
  chunk_id : Nat
  filename : String
  page : Option Nat
  deriving DecidableEq

/-- The citation reference id reconstructed at retrieval time:
`f"{metadata['file_hash']}_{metadata['chunk_id']}"`. -/
def chunk_ref_id (d : RetrievedDoc) : String :=
  d.file_hash ++ "_" ++ toString d.chunk_id

/-- Step C of `process_query`: the `RETRIEVED CONTEXT` block, one labelled
section per candidate, accumulated over the `(doc, score)` pairs in rank
order. -/
def build_context (retrieved : List (RetrievedDoc × Rat)) : String :=
  retrieved.foldl (fun acc p =>
    acc ++ "\n--- Source ID: " ++ chunk_ref_id p.1 ++ " ---\n" ++ p.1.page_content ++ "\n") ""

/-- The `citation_map` dict built in step C, looked up by reference id.
Assignment in iteration order with later writes overriding earlier ones, so
the lookup returns the last candidate bearing that id. -/
def citation_lookup (retrieved : List (RetrievedDoc × Rat)) (ref : String) :
    Option RetrievedDoc :=
  ((retrieved.map Prod.fst).filter (fun d => chunk_ref_id d = ref)).getLast?

/-- Step D of `process_query`: the full prompt f-string, with the instance's
`system_instruction` (a fixed English directive text, irrelevant to the
claims) threaded in as `sys_instr`. -/
def full_prompt_of (sys_instr history_text context_str message : String) : String :=
  "\n            " ++ sys_instr ++
  "\n\n            CONVERSATION HISTORY:\n            " ++ history_text ++
  "\n\n            RETRIEVED CONTEXT:\n            " ++ context_str ++
  "\n\n            USER QUESTION: \n            " ++ message ++ "\n            "

/-- The structured output contract `RAGResponse` (`app/models/chat.py`). -/
structure RAGResponse where
  thinking_process : String
  answer : String
  citation_ids : List String
  is_refusal : Bool
  deriving DecidableEq

/-- A verified citation (`app/models/chat.py`). -/
structure Citation where
  source_id : String
  quote : String
  page : Option Nat
  file_name : String
  deriving DecidableEq

/-- The chat API response (`app/models/chat.py`); `tool_used` keeps its
model default, which `process_query` never overrides. -/
structure ChatResponse where
  answer : String
  citations : List Citation
  tool_used : String := "retrieval_augmented_generation"
  is_refusal : Bool
  session_id : String
  deriving DecidableEq

/-- Result of one `ChatService.process_query` call: the response, the
session-history state afterwards, and the prompt sent to the generator
(`none` when the pipeline returned before reaching the generator). -/
structure QueryOutcome where
  resp : ChatResponse
  hist : HistMap
  prompt_sent : Option String
  deriving DecidableEq

/-- `ChatService.process_query`, parameterised by the retrieval outcome
`retrieved` (what `similarity_search_with_score(message, k=5)` returned) and
the generator outcome `gen` (`.ok` the parsed `RAGResponse`; `.error` any
exception raised by the generate call or the empty-parse `ValueError`, which
the surrounding `except` clause converts into the system-error response).
Mirrors the source order: compute `best_score`; refuse on an empty
candidate list; build the context block and `citation_map`; render history;
assemble the prompt; on generator success reconcile citations (dropping
unknown ids, forcing `[]` on refusal), append the two history turns, and
answer; on an exception return the system-error refusal with history
untouched. -/
def process_query (sys_instr : String) (hist : HistMap) (session_id message : String)
    (retrieved : List (RetrievedDoc × Rat)) (gen : Except String RAGResponse) :
    QueryOutcome :=
  let best_score : Rat := match retrieved with
    | [] => 0
    | p :: _ => p.2
  if retrieved = [] then
    { resp := { answer := "Error: No documents found in database. Did you upload a file?"
                citations := []
                is_refusal := true
                session_id := session_id }
      hist := hist
      prompt_sent := none }
  else
    let context_str := build_context retrieved
    let history_text := get_history_text hist session_id
    let full_prompt := full_prompt_of sys_instr history_text context_str message
    match gen with
    | .error e =>
        { resp := { answer := "System Error: " ++ e
                    citations := []
                    is_refusal := true
                    session_id := session_id }
          hist := hist
          prompt_sent := some full_prompt }
    | .ok r =>
        let final_citations : List Citation :=
          if r.is_refusal then []
          else
            r.citation_ids.filterMap (fun ref =>
              (citation_lookup retrieved ref).map (fun d =>
                { source_id := ref
                  quote := d.page_content.take 150 ++ "..."
                  page := d.page
                  file_name := d.filename }))
        { resp := { answer := r.answer
                    citations := final_citations
                    is_refusal := r.is_refusal
                    session_id := session_id }
          hist := update_history hist session_id message r.answer
          prompt_sent := some full_prompt }

/-- A chunk as stored in the vector index, for the evidence endpoint. -/
structure StoredChunk where
  file_hash : String
  chunk_id : Nat
  content : String
  deriving DecidableEq

/-- Modelled from the spec: `ChatService.get_chunk_text` is called by the
`GET /chunks/{doc_id}/{chunk_index}` handler in `app/api/routes.py` and
exercised by `test_get_chunk_evidence_not_found`, but no definition of it
appears in the sources. Per the spec ("returns a sentinel \x22not found\x22
string (never a 404/500) when the chunk does not exist") and the test's
asserted sentinel, it looks the chunk up in the index by
`(doc_id, chunk_index)` and returns its text, or the sentinel
`"Source chunk not found."` when no such chunk exists. -/
def get_chunk_text (index : List StoredChunk) (doc_id : String) (chunk_index : Nat) :
    String :=
  match index.find? (fun c => c.file_hash = doc_id && c.chunk_id = chunk_index) with
  | some c => c.content
  | none => "Source chunk not found."

/-- The `GET /chunks/{doc_id}/{chunk_index}` handler response: FastAPI wraps
the returned dict in its default HTTP 200; `get_chunk_text` is total, so no
exception path exists in the handler. -/
structure ChunkRouteResponse where
  status_code : Nat
  doc_id : String
  chunk_index : Nat
  content : String
  deriving DecidableEq

/-- The `get_chunk` route handler of `app/api/routes.py`. -/
def get_chunk (index : List StoredChunk) (doc_id : String) (chunk_index : Nat) :
    ChunkRouteResponse :=
  { status_code := 200
    doc_id := doc_id
    chunk_index := chunk_index
    content := get_chunk_text index doc_id chunk_index }

/-! ## Theorems -/

/-- Claim C1: for every GET `/chunks/{doc_id}/{chunk_index}` request whose
`(doc_id, chunk_index)` pair does not identify an existing chunk, the
endpoint returns an HTTP 200 response whose content field is the sentinel
"Source chunk not found." string; the handler has no 404/500 path. -/
theorem chunk_lookup_graceful (index : List StoredChunk) (doc_id : String)
    (chunk_index : Nat)
    (h : ∀ c ∈ index, ¬(c.file_hash = doc_id ∧ c.chunk_id = chunk_index)) :
    get_chunk index doc_id chunk_index =
      { status_code := 200, doc_id := doc_id, chunk_index := chunk_index,
        content := "Source chunk not found." } := by
  have hnone : index.find? (fun c => c.file_hash = doc_id && c.chunk_id = chunk_index)
      = none := by
    rw [List.find?_eq_none]
    intro c hc
    simpa using h c hc
  unfold get_chunk get_chunk_text
  rw [hnone]

/-- Witness for C1: a concrete index with one chunk, queried at the
test suite's unknown pair. -/
theorem chunk_lookup_graceful_witness :
    get_chunk [⟨"abc", 0, "hello"⟩] "00000000000000000000000000000000" 9999 =
      { status_code := 200, doc_id := "00000000000000000000000000000000",
        chunk_index := 9999, content := "Source chunk not found." } :=
  chunk_lookup_graceful [⟨"abc", 0, "hello"⟩] "00000000000000000000000000000000" 9999
    (by decide)

/-- Claim C5: every chat response produced by `process_query` with
`is_refusal = true` — model-asserted refusal, empty index, or system
error — carries an empty citations list, regardless of the citation ids the
generator emitted. -/
theorem refusal_implies_no_citations (sys_instr : String) (hist : HistMap)
    (session_id message : String) (retrieved : List (RetrievedDoc × Rat))
    (gen : Except String RAGResponse)
    (h : (process_query sys_instr hist session_id message retrieved gen).resp.is_refusal
          = true) :
    (process_query sys_instr hist session_id message retrieved gen).resp.citations = [] := by
  cases retrieved with
  | nil => rfl
  | cons p t =>
      cases gen with
      | error e => rfl
      | ok r => simp_all [process_query]

/-- Witness for C5: at an empty index the response is a refusal and indeed
carries no citations. -/
theorem refusal_implies_no_citations_witness :
    (process_query "" [] "s" "q" [] (Except.error "boom")).resp.citations = [] :=
  refusal_implies_no_citations "" [] "s" "q" [] (Except.error "boom") (by decide)

/-- Claim C8: a chat query issued when retrieval returns an empty candidate
list yields a normal (non-raising) response that is a refusal with the
explicit "No documents found" message and an empty citations list; the
session history is untouched on this path. -/
theorem empty_index_refusal (sys_instr : String) (hist : HistMap)
    (session_id message : String) (gen : Except String RAGResponse) :
    (process_query sys_instr hist session_id message [] gen).resp.is_refusal = true ∧
    (process_query sys_instr hist session_id message [] gen).resp.citations = [] ∧
    (process_query sys_instr hist session_id message [] gen).resp.answer =
      "Error: " ++ "No documents found" ++ " in database. Did you upload a file?" ∧
    (process_query sys_instr hist session_id message [] gen).hist = hist := by
  have hstr : ("Error: " ++ "No documents found" ++ " in database. Did you upload a file?"
      : String) = "Error: No documents found in database. Did you upload a file?" := by
    decide
  exact ⟨rfl, rfl, by rw [hstr]; rfl, rfl⟩

/-- Claim C10: for every upload whose fingerprint is already registered, the
`skipped` response reports `chunk_count = 0` and a message containing
"already exists", regardless of what the original ingestion created. -/
theorem duplicate_upload_reports_zero_chunks (md5 : Bytes → String)
    (ext : Bytes → List PageDoc) (split : List PageDoc → List PageDoc)
    (index_ok : Bool) (now : String) (store : FingerprintStore)
    (filename : String) (content : Bytes)
    (h : is_duplicate store (md5 content) = true) :
    ∃ resp, (ingest_document md5 ext split index_ok now store filename content).1
        = .ok resp ∧
      resp.status = "skipped" ∧
      (∃ d, resp.data = some d ∧ d.chunk_count = 0) ∧
      ∃ pre post, resp.message = pre ++ "already exists" ++ post := by
  refine ⟨{ message := "Document \x27" ++ filename ++ "\x27 already exists. Skipping ingestion."
            status := "skipped"
            data := some { filename := filename, content_hash := md5 content,
                           upload_date := now, doc_id := md5 content, chunk_count := 0 } },
      ?_, rfl, ⟨_, rfl, rfl⟩,
      "Document \x27" ++ filename ++ "\x27 ", ". Skipping ingestion.", ?_⟩
  · simp [ingest_document, h]
  · have hsplit : "\x27 already exists. Skipping ingestion."
        = "\x27 " ++ "already exists" ++ ". Skipping ingestion." := by decide
    conv_lhs => rw [hsplit]
    simp [String.append_assoc]

/-- Witness for C10: a store already holding the hash yields the skipped
response with zero chunks. -/
theorem duplicate_upload_reports_zero_chunks_witness :
    ∃ resp, (ingest_document (fun _ => "h") (fun _ => [⟨"text", none⟩]) id true "t"
        [("h", "old.pdf")] "new.pdf" [0, 1]).1 = .ok resp ∧
      resp.status = "skipped" ∧
      (∃ d, resp.data = some d ∧ d.chunk_count = 0) ∧
      ∃ pre post, resp.message = pre ++ "already exists" ++ post :=
  duplicate_upload_reports_zero_chunks (fun _ => "h") (fun _ => [⟨"text", none⟩]) id true "t"
    [("h", "old.pdf")] "new.pdf" [0, 1] (by decide)

/-- Registering a fingerprint makes it a duplicate afterwards. -/
theorem is_duplicate_register (store : FingerprintStore) (content_hash filename : String) :
    is_duplicate (register_file store content_hash filename) content_hash = true := by
  unfold is_duplicate register_file
  by_cases hmem : store.any (fun row => row.1 = content_hash)
  · simp [hmem]
  · simp [hmem, List.any_append]

/-- Counterexample for C6: at an upload with no extractable text (the loader
yields no documents), the pipeline's error outcome carries the message
"Could not extract text", not the reason "no extractable text" the claim
states. -/
theorem extraction_error_message_cx :
    (process_document (fun _ => []) id true [0] "f.pdf" "h").1
      = ProcOutcome.error "Could not extract text" ∧
    (process_document (fun _ => []) id true [0] "f.pdf" "h").1
      ≠ ProcOutcome.error "no extractable text" := by
  decide

/-- Claim C6 (amended): for every upload whose text extraction yields no
text, `process_document` returns status error with message
"Could not extract text"; the route surfaces it as an HTTP 500; nothing is
embedded or indexed; the fingerprint is not registered; and a later retry
whose extraction succeeds re-attempts full processing and returns
`processed`. -/
theorem extraction_failure_not_registered (md5 : Bytes → String)
    (ext : Bytes → List PageDoc) (split : List PageDoc → List PageDoc)
    (index_ok : Bool) (now : String) (store : FingerprintStore)
    (filename : String) (content : Bytes)
    (hfresh : is_duplicate store (md5 content) = false)
    (hext : ext content = []) :
    process_document ext split index_ok content filename (md5 content)
      = (.error "Could not extract text", ⟨1, 0, 0, 0⟩) ∧
    (ingest_document md5 ext split index_ok now store filename content).1
      = .error ⟨500, "Internal Server Error: 500: " ++ "Could not extract text"⟩ ∧
    (ingest_document md5 ext split index_ok now store filename content).2.1 = store ∧
    (ingest_document md5 ext split index_ok now store filename content).2.2.embed_calls
      = 0 ∧
    (ingest_document md5 ext split index_ok now store filename content).2.2.index_writes
      = 0 ∧
    (∀ ext2 : Bytes → List PageDoc, ext2 content ≠ [] →
      ∃ resp, (ingest_document md5 ext2 split true now
          (ingest_document md5 ext split index_ok now store filename content).2.1
          filename content).1 = .ok resp ∧ resp.status = "processed") := by
  have hproc : process_document ext split index_ok content filename (md5 content)
      = (.error "Could not extract text", ⟨1, 0, 0, 0⟩) := by
    unfold process_document
    simp [hext]
  have hroute : ingest_document md5 ext split index_ok now store filename content
      = (.error ⟨500, "Internal Server Error: 500: " ++ "Could not extract text"⟩,
         store, ⟨1, 0, 0, 0⟩) := by
    unfold ingest_document
    simp [hfresh, hproc]
  refine ⟨hproc, by rw [hroute], by rw [hroute], by rw [hroute], by rw [hroute], ?_⟩
  intro ext2 hext2
  rw [hroute]
  unfold ingest_document process_document
  simp only [hfresh]
  simp [hext2]

/-- Witness for C6 (amended): a concrete upload whose loader yields nothing,
retried with a loader that yields one page. -/
theorem extraction_failure_not_registered_witness :
    process_document (fun _ => []) id true [0] "f.pdf" "h"
      = (.error "Could not extract text", ⟨1, 0, 0, 0⟩) ∧
    (ingest_document (fun _ => "h") (fun _ => []) id true "t" [] "f.pdf" [0]).1
      = .error ⟨500, "Internal Server Error: 500: " ++ "Could not extract text"⟩ ∧
    (ingest_document (fun _ => "h") (fun _ => []) id true "t" [] "f.pdf" [0]).2.1 = [] ∧
    (ingest_document (fun _ => "h") (fun _ => []) id true "t" [] "f.pdf" [0]).2.2.embed_calls
      = 0 ∧
    (ingest_document (fun _ => "h") (fun _ => []) id true "t" [] "f.pdf" [0]).2.2.index_writes
      = 0 ∧
    (∀ ext2 : Bytes → List PageDoc, ext2 [0] ≠ [] →
      ∃ resp, (ingest_document (fun _ => "h") ext2 id true "t"
          (ingest_document (fun _ => "h") (fun _ => []) id true "t" [] "f.pdf" [0]).2.1
          "f.pdf" [0]).1 = .ok resp ∧ resp.status = "processed") := by
  have hmain := extraction_failure_not_registered (fun _ => "h") (fun _ => []) id true "t"
    [] "f.pdf" [0] (by decide) rfl
  exact ⟨extraction_error_message_cx.1.symm ▸ hmain.1, hmain.2⟩

/-- Claim C3: uploading the same bytes twice (first upload fresh and fully
successful) yields `processed` then `skipped`; the second call performs no
extraction, chunking, embedding, or index-write work, and leaves the
fingerprint store unchanged. -/
theorem dedup_second_upload_skipped (md5 : Bytes → String)
    (ext : Bytes → List PageDoc) (split : List PageDoc → List PageDoc)
    (now1 now2 : String) (store : FingerprintStore) (fn1 fn2 : String) (content : Bytes)
    (hfresh : is_duplicate store (md5 content) = false)
    (hext : ext content ≠ []) :
    (∃ resp1, (ingest_document md5 ext split true now1 store fn1 content).1
        = .ok resp1 ∧ resp1.status = "processed") ∧
    (∃ resp2, (ingest_document md5 ext split true now2
        (ingest_document md5 ext split true now1 store fn1 content).2.1 fn2 content).1
        = .ok resp2 ∧ resp2.status = "skipped") ∧
    (ingest_document md5 ext split true now2
        (ingest_document md5 ext split true now1 store fn1 content).2.1 fn2 content).2.2
      = Effects.none ∧
    (ingest_document md5 ext split true now2
        (ingest_document md5 ext split true now1 store fn1 content).2.1 fn2 content).2.1
      = (ingest_document md5 ext split true now1 store fn1 content).2.1 := by
  have hfirst : ingest_document md5 ext split true now1 store fn1 content
      = (.ok { message := "Document processed and indexed successfully."
               status := "processed"
               data := some { filename := fn1, content_hash := md5 content,
                              upload_date := now1, doc_id := md5 content,
                              chunk_count := (inject_metadata (md5 content) fn1
                                (split (ext content))).length } },
         register_file store (md5 content) fn1, ⟨1, 1, 1, 1⟩) := by
    unfold ingest_document process_document
    simp [hfresh, hext]
  have hdup : is_duplicate (register_file store (md5 content) fn1) (md5 content) = true :=
    is_duplicate_register store (md5 content) fn1
  have hsecond : ingest_document md5 ext split true now2
      (register_file store (md5 content) fn1) fn2 content
      = (.ok { message := "Document \x27" ++ fn2 ++ "\x27 already exists. Skipping ingestion."
               status := "skipped"
               data := some { filename := fn2, content_hash := md5 content,
                              upload_date := now2, doc_id := md5 content,
                              chunk_count := 0 } },
         register_file store (md5 content) fn1, Effects.none) := by
    unfold ingest_document
    simp [hdup]
  rw [hfirst]
  refine ⟨⟨_, rfl, rfl⟩, ?_, ?_, ?_⟩ <;> simp [hsecond]

/-- Witness for C3: a concrete fresh upload processed twice. -/
theorem dedup_second_upload_skipped_witness :
    (∃ resp1, (ingest_document (fun _ => "h") (fun _ => [⟨"text", none⟩]) id true "t1"
        [] "a.pdf" [0, 1]).1 = .ok resp1 ∧ resp1.status = "processed") ∧
    (∃ resp2, (ingest_document (fun _ => "h") (fun _ => [⟨"text", none⟩]) id true "t2"
        (ingest_document (fun _ => "h") (fun _ => [⟨"text", none⟩]) id true "t1"
          [] "a.pdf" [0, 1]).2.1 "b.pdf" [0, 1]).1 = .ok resp2 ∧
      resp2.status = "skipped") ∧
    (ingest_document (fun _ => "h") (fun _ => [⟨"text", none⟩]) id true "t2"
        (ingest_document (fun _ => "h") (fun _ => [⟨"text", none⟩]) id true "t1"
          [] "a.pdf" [0, 1]).2.1 "b.pdf" [0, 1]).2.2 = Effects.none ∧
    (ingest_document (fun _ => "h") (fun _ => [⟨"text", none⟩]) id true "t2"
        (ingest_document (fun _ => "h") (fun _ => [⟨"text", none⟩]) id true "t1"
          [] "a.pdf" [0, 1]).2.1 "b.pdf" [0, 1]).2.1
      = (ingest_document (fun _ => "h") (fun _ => [⟨"text", none⟩]) id true "t1"
          [] "a.pdf" [0, 1]).2.1 :=
  dedup_second_upload_skipped (fun _ => "h") (fun _ => [⟨"text", none⟩]) id "t1" "t2"
    [] "a.pdf" "b.pdf" [0, 1] (by decide) (by decide)

/-- A session absent from the map has no stored entry. -/
theorem hist_find_none (h : HistMap) (sid : String) (hh : hist_has h sid = false) :
    h.find? (fun p => p.1 = sid) = none := by
  rw [List.find?_eq_none]
  intro x hx
  intro hkey
  have : h.any (fun p => p.1 = sid) = true := List.any_eq_true.mpr ⟨x, hx, hkey⟩
  rw [hist_has] at hh
  simp [this] at hh

/-- Appending a fresh entry for another session does not change a lookup. -/
theorem hist_get_append_other (l : HistMap) (sid sid2 : String) (v : List Turn)
    (hne : sid2 ≠ sid) :
    hist_get (l ++ [(sid, v)]) sid2 = hist_get l sid2 := by
  unfold hist_get
  rw [List.find?_append]
  have hnone : List.find? (fun p => p.1 = sid2) [(sid, v)] = none := by
    simp [Ne.symm hne]
  rw [hnone]
  cases l.find? (fun p => p.1 = sid2) <;> rfl

/-- Appending turns to every entry of one session, read back at that
session. -/
theorem hist_get_map_self (h : HistMap) (sid : String) (ts : List Turn) :
    hist_get (h.map (fun p => if p.1 = sid then (p.1, p.2 ++ ts) else p)) sid =
      (if hist_has h sid = true then hist_get h sid ++ ts else []) := by
  induction h with
  | nil => simp [hist_get, hist_has]
  | cons p t ih =>
      by_cases hp : p.1 = sid
      · simp [hist_get, hist_has, hp]
      · simp only [List.map_cons, if_neg hp]
        rw [show hist_get (p :: t.map _) sid = hist_get (t.map _) sid from by
          unfold hist_get
          rw [List.find?_cons_of_neg _ (by simpa using hp)]]
        rw [ih]
        rw [show hist_has (p :: t) sid = hist_has t sid from by
          simp [hist_has, hp]]
        rw [show hist_get (p :: t) sid = hist_get t sid from by
          unfold hist_get
          rw [List.find?_cons_of_neg _ (by simpa using hp)]]

/-- Appending turns to one session's entries, read back at another
session. -/
theorem hist_get_map_other (h : HistMap) (sid sid2 : String) (ts : List Turn)
    (hne : sid2 ≠ sid) :
    hist_get (h.map (fun p => if p.1 = sid then (p.1, p.2 ++ ts) else p)) sid2 =
      hist_get h sid2 := by
  induction h with
  | nil => rfl
  | cons p t ih =>
      by_cases hp : p.1 = sid
      · have hnot : ¬(p.1 = sid2) := by
          rw [hp]
          exact fun hh => hne hh.symm
        simp only [List.map_cons, if_pos hp]
        unfold hist_get
        rw [List.find?_cons_of_neg _ (by simpa using hnot),
          List.find?_cons_of_neg _ (by simpa using hnot)]
        exact ih
      · by_cases hq : p.1 = sid2
        · simp [hist_get, hp, hq, hne]
        · simp only [List.map_cons, if_neg hp]
          unfold hist_get
          rw [List.find?_cons_of_neg _ (by simpa using hq),
            List.find?_cons_of_neg _ (by simpa using hq)]
          exact ih

/-- `_update_history` appends exactly the user turn then the model turn to
the session's log, creating the log when absent. -/
theorem hist_get_update_self (h : HistMap) (sid u a : String) :
    hist_get (update_history h sid u a) sid =
      hist_get h sid ++ [⟨"user", u⟩, ⟨"model", a⟩] := by
  unfold update_history
  cases hh : hist_has h sid with
  | true =>
      simp only [hh, if_pos]
      rw [hist_get_map_self, if_pos hh]
  | false =>
      simp only [hh, Bool.false_eq_true, if_neg, not_false_iff]
      rw [List.map_append]
      rw [show List.map (fun p => if p.1 = sid then
            (p.1, p.2 ++ [Turn.mk "user" u, Turn.mk "model" a]) else p) [(sid, [])]
          = [(sid, [] ++ [Turn.mk "user" u, Turn.mk "model" a])] from by simp]
      have h1 : hist_get (h.map (fun p => if p.1 = sid then
          (p.1, p.2 ++ [⟨"user", u⟩, ⟨"model", a⟩]) else p) ++
            [(sid, [] ++ [⟨"user", u⟩, ⟨"model", a⟩])]) sid
          = [] ++ [Turn.mk "user" u, Turn.mk "model" a] := by
        unfold hist_get
        rw [List.find?_append]
        have hnone : (h.map (fun p => if p.1 = sid then
            (p.1, p.2 ++ [⟨"user", u⟩, ⟨"model", a⟩]) else p)).find?
              (fun p => p.1 = sid) = none := by
          rw [List.find?_eq_none]
          intro x hx
          obtain ⟨q, hq, hqx⟩ := List.mem_map.mp hx
          have hkey : x.1 = q.1 := by
            by_cases hcase : q.1 = sid <;> simp [← hqx, hcase]
          have hqs : ¬(q.1 = sid) := by
            intro hqs
            have : h.any (fun p => p.1 = sid) = true := List.any_eq_true.mpr ⟨q, hq, by simpa using hqs⟩
            rw [hist_has] at hh
            simp [this] at hh
          simp [hkey, hqs]
        rw [hnone]
        simp
      rw [h1]
      have h2 : hist_get h sid = [] := by
        unfold hist_get
        rw [hist_find_none h sid hh]
      rw [h2]

/-- `_update_history` leaves every other session's log unchanged. -/
theorem hist_get_update_other (h : HistMap) (sid u a sid2 : String) (hne : sid2 ≠ sid) :
    hist_get (update_history h sid u a) sid2 = hist_get h sid2 := by
  unfold update_history
  cases hh : hist_has h sid with
  | true =>
      simp only [hh, if_pos]
      exact hist_get_map_other h sid sid2 _ hne
  | false =>
      simp only [hh, Bool.false_eq_true, if_neg, not_false_iff]
      rw [List.map_append]
      rw [show List.map (fun p => if p.1 = sid then
            (p.1, p.2 ++ [Turn.mk "user" u, Turn.mk "model" a]) else p) [(sid, [])]
          = [(sid, [] ++ [Turn.mk "user" u, Turn.mk "model" a])] from by simp]
      rw [hist_get_append_other _ sid sid2 _ hne]
      exact hist_get_map_other h sid sid2 _ hne

/-- Claim C9: session history changes only on the successful-generation
path — a successful turn appends exactly the user message then the
assistant answer to that session's log (creating it if absent) and leaves
every other session's log unchanged; on the empty-index refusal path and on
the system-error path the history store is left exactly as it was. -/
theorem history_updated_only_on_success (sys_instr : String) (hist : HistMap)
    (session_id message : String) (retrieved : List (RetrievedDoc × Rat))
    (gen : Except String RAGResponse) :
    ((retrieved = [] ∨ ∃ e, gen = Except.error e) →
      (process_query sys_instr hist session_id message retrieved gen).hist = hist) ∧
    (∀ r, gen = Except.ok r → retrieved ≠ [] →
      hist_get (process_query sys_instr hist session_id message retrieved gen).hist
          session_id
        = hist_get hist session_id ++ [⟨"user", message⟩, ⟨"model", r.answer⟩] ∧
      ∀ sid2, sid2 ≠ session_id →
        hist_get (process_query sys_instr hist session_id message retrieved gen).hist sid2
          = hist_get hist sid2) := by
  constructor
  · rintro (hempty | ⟨e, hgen⟩)
    · subst hempty; rfl
    · subst hgen
      cases retrieved with
      | nil => rfl
      | cons p t => rfl
  · intro r hgen hne
    subst hgen
    cases retrieved with
    | nil => exact absurd rfl hne
    | cons p t =>
        have hout : (process_query sys_instr hist session_id message (p :: t)
            (Except.ok r)).hist = update_history hist session_id message r.answer := rfl
        rw [hout]
        exact ⟨hist_get_update_self _ _ _ _,
          fun sid2 h2 => hist_get_update_other _ _ _ _ _ h2⟩

/-- Witness for C9: one concrete successful turn appends the two entries to
a fresh session, and the empty-index call leaves the store untouched. -/
theorem history_updated_only_on_success_witness :
    (([] : List (RetrievedDoc × Rat)) = [] ∨
        ∃ e, (Except.ok ⟨"t", "a", [], false⟩ : Except String RAGResponse)
          = Except.error e) ∧
    (process_query "" [("s", [])] "s" "q" [] (Except.ok ⟨"t", "a", [], false⟩)).hist
      = [("s", [])] ∧
    hist_get (process_query "" [] "s" "q" [(⟨"c", "h", 0, "f", none⟩, 1)]
        (Except.ok ⟨"t", "a", [], false⟩)).hist "s"
      = hist_get [] "s" ++ [⟨"user", "q"⟩, ⟨"model", "a"⟩] :=
  ⟨Or.inl rfl,
   (history_updated_only_on_success "" [("s", [])] "s" "q" []
      (Except.ok ⟨"t", "a", [], false⟩)).1 (Or.inl rfl),
   ((history_updated_only_on_success "" [] "s" "q" [(⟨"c", "h", 0, "f", none⟩, 1)]
      (Except.ok ⟨"t", "a", [], false⟩)).2 ⟨"t", "a", [], false⟩ rfl
        (by decide)).1⟩

/-- Claim C7: building a prompt reads only the most recent 5 stored turns of
the session — two histories agreeing on their last-5 window produce the same
rendered history text and the same generator prompt — and when the stored
log is `pre ++ w` with `w` of length 5, exactly `w` is rendered, oldest turn
first. -/
theorem prompt_reads_last_five_turns :
    (∀ (h h2 : HistMap) (sid : String),
        lastN 5 (hist_get h sid) = lastN 5 (hist_get h2 sid) →
        get_history_text h sid = get_history_text h2 sid) ∧
    (∀ (h : HistMap) (sid : String) (pre w : List Turn),
        w.length = 5 → hist_get h sid = pre ++ w →
        get_history_text h sid = render_history w) ∧
    (∀ (sys_instr : String) (h h2 : HistMap) (sid message : String)
        (retrieved : List (RetrievedDoc × Rat)) (gen : Except String RAGResponse),
        lastN 5 (hist_get h sid) = lastN 5 (hist_get h2 sid) →
        (process_query sys_instr h sid message retrieved gen).prompt_sent =
          (process_query sys_instr h2 sid message retrieved gen).prompt_sent) := by
  have hwin : ∀ (h h2 : HistMap) (sid : String),
      lastN 5 (hist_get h sid) = lastN 5 (hist_get h2 sid) →
      get_history_text h sid = get_history_text h2 sid := by
    intro h h2 sid hagree
    unfold get_history_text
    rw [hagree]
  refine ⟨hwin, ?_, ?_⟩
  · intro h sid pre w hw hget
    unfold get_history_text
    rw [hget]
    have hlast : lastN 5 (pre ++ w) = w := by
      unfold lastN
      rw [List.length_append, hw, Nat.add_sub_cancel, List.drop_left]
    rw [hlast]
  · intro sys_instr h h2 sid message retrieved gen hagree
    cases retrieved with
    | nil => rfl
    | cons p t =>
        have hp1 : (process_query sys_instr h sid message (p :: t) gen).prompt_sent
            = some (full_prompt_of sys_instr (get_history_text h sid)
                (build_context (p :: t)) message) := by
          cases gen <;> rfl
        have hp2 : (process_query sys_instr h2 sid message (p :: t) gen).prompt_sent
            = some (full_prompt_of sys_instr (get_history_text h2 sid)
                (build_context (p :: t)) message) := by
          cases gen <;> rfl
        rw [hp1, hp2, hwin h h2 sid hagree]

/-- Witness for C7: two histories that differ only in a turn older than the
5-turn window render identically, and a 7-turn log renders exactly its last
5 turns. -/
theorem prompt_reads_last_five_turns_witness :
    get_history_text [("s", [⟨"user", "old1"⟩, ⟨"model", "old2"⟩, ⟨"user", "a"⟩,
        ⟨"model", "b"⟩, ⟨"user", "c"⟩, ⟨"model", "d"⟩, ⟨"user", "e"⟩])] "s"
      = get_history_text [("s", [⟨"user", "DIFFERENT"⟩, ⟨"model", "old2"⟩, ⟨"user", "a"⟩,
        ⟨"model", "b"⟩, ⟨"user", "c"⟩, ⟨"model", "d"⟩, ⟨"user", "e"⟩])] "s" ∧
    get_history_text [("s", [⟨"user", "old1"⟩, ⟨"model", "old2"⟩, ⟨"user", "a"⟩,
        ⟨"model", "b"⟩, ⟨"user", "c"⟩, ⟨"model", "d"⟩, ⟨"user", "e"⟩])] "s"
      = render_history [⟨"user", "a"⟩, ⟨"model", "b"⟩, ⟨"user", "c"⟩, ⟨"model", "d"⟩,
          ⟨"user", "e"⟩] :=
  ⟨prompt_reads_last_five_turns.1 _ _ "s" (by decide),
   prompt_reads_last_five_turns.2.1 _ "s" [⟨"user", "old1"⟩, ⟨"model", "old2"⟩]
     [⟨"user", "a"⟩, ⟨"model", "b"⟩, ⟨"user", "c"⟩, ⟨"model", "d"⟩, ⟨"user", "e"⟩]
     (by decide) (by decide)⟩

/-- Claim C4: on the non-refusal generated path, every surfaced citation's
id is one the generator emitted AND is the reference id of an actually
retrieved candidate; any emitted id matching no retrieved candidate never
surfaces (silently dropped, with the call still answering normally). -/
theorem citations_from_retrieved_set (sys_instr : String) (hist : HistMap)
    (session_id message : String) (retrieved : List (RetrievedDoc × Rat))
    (r : RAGResponse) (hne : retrieved ≠ []) (hok : r.is_refusal = false) :
    (process_query sys_instr hist session_id message retrieved (Except.ok r)).resp.is_refusal
      = false ∧
    (process_query sys_instr hist session_id message retrieved (Except.ok r)).resp.answer
      = r.answer ∧
    (∀ c ∈ (process_query sys_instr hist session_id message retrieved
        (Except.ok r)).resp.citations,
      c.source_id ∈ r.citation_ids ∧ ∃ p ∈ retrieved, chunk_ref_id p.1 = c.source_id) ∧
    (∀ ref ∈ r.citation_ids, (∀ p ∈ retrieved, chunk_ref_id p.1 ≠ ref) →
      ∀ c ∈ (process_query sys_instr hist session_id message retrieved
          (Except.ok r)).resp.citations,
        c.source_id ≠ ref) := by
  cases retrieved with
  | nil => exact absurd rfl hne
  | cons q t =>
      have hrefusal : (process_query sys_instr hist session_id message (q :: t)
          (Except.ok r)).resp.is_refusal = r.is_refusal := rfl
      have hanswer : (process_query sys_instr hist session_id message (q :: t)
          (Except.ok r)).resp.answer = r.answer := rfl
      have hcit : (process_query sys_instr hist session_id message (q :: t)
          (Except.ok r)).resp.citations
          = r.citation_ids.filterMap (fun ref =>
              (citation_lookup (q :: t) ref).map (fun d =>
                { source_id := ref, quote := d.page_content.take 150 ++ "...",
                  page := d.page, file_name := d.filename })) := by
        show (if r.is_refusal then [] else _) = _
        rw [hok]
        exact if_neg (by simp)
      have hmem : ∀ c ∈ (process_query sys_instr hist session_id message (q :: t)
          (Except.ok r)).resp.citations,
          c.source_id ∈ r.citation_ids ∧ ∃ p ∈ q :: t, chunk_ref_id p.1 = c.source_id := by
        intro c hc
        rw [hcit] at hc
        obtain ⟨ref, href, hfc⟩ := List.mem_filterMap.mp hc
        obtain ⟨d, hd, hgd⟩ := Option.map_eq_some.mp hfc
        have hsrc : c.source_id = ref := by rw [← hgd]
        have hdmem : d ∈ ((q :: t).map Prod.fst).filter
            (fun x => chunk_ref_id x = ref) :=
          List.mem_of_mem_getLast? (Option.mem_def.mpr hd)
        obtain ⟨hdmap, hdpred⟩ := List.mem_filter.mp hdmem
        obtain ⟨p, hp, hpd⟩ := List.mem_map.mp hdmap
        refine ⟨hsrc ▸ href, p, hp, ?_⟩
        rw [hpd, hsrc]
        exact of_decide_eq_true hdpred
      refine ⟨hok ▸ hrefusal, hanswer, hmem, ?_⟩
      intro ref _ hnone c hc hceq
      obtain ⟨_, p, hp, hpref⟩ := hmem c hc
      exact hnone p hp (hceq ▸ hpref)

/-- Witness for C4: one retrieved candidate, a generator citing both the
real id and a fabricated one; only the real id survives. -/
theorem citations_from_retrieved_set_witness :
    (process_query "" [] "s" "q" [(⟨"content text", "h", 0, "f.pdf", none⟩, 1)]
        (Except.ok ⟨"t", "ans", ["h_0", "ghost_99"], false⟩)).resp.is_refusal = false ∧
    (∀ c ∈ (process_query "" [] "s" "q" [(⟨"content text", "h", 0, "f.pdf", none⟩, 1)]
        (Except.ok ⟨"t", "ans", ["h_0", "ghost_99"], false⟩)).resp.citations,
      c.source_id ≠ "ghost_99") := by
  have hmain := citations_from_retrieved_set "" [] "s" "q"
    [(⟨"content text", "h", 0, "f.pdf", none⟩, 1)] ⟨"t", "ans", ["h_0", "ghost_99"], false⟩
    (by simp) rfl
  exact ⟨hmain.1, hmain.2.2.2 "ghost_99" (by simp) (by decide)⟩

/-- Folding a list of pairs with a function that reads only first components
is determined by those components. -/
theorem foldl_fst_eq {α β γ : Type} (g : γ → α → γ) :
    ∀ (l₁ l₂ : List (α × β)) (acc : γ), l₁.map Prod.fst = l₂.map Prod.fst →
      l₁.foldl (fun a p => g a p.1) acc = l₂.foldl (fun a p => g a p.1) acc := by
  intro l₁
  induction l₁ with
  | nil =>
      intro l₂ acc h
      cases l₂ with
      | nil => rfl
      | cons q t₂ => simp at h
  | cons p t ih =>
      intro l₂ acc h
      cases l₂ with
      | nil => simp at h
      | cons q t₂ =>
          simp only [List.map_cons, List.cons.injEq] at h
          rw [List.foldl_cons, List.foldl_cons, h.1]
          exact ih t₂ _ h.2

/-- The context block depends only on the retrieved documents, never on
their similarity scores. -/
theorem build_context_fst (l₁ l₂ : List (RetrievedDoc × Rat))
    (h : l₁.map Prod.fst = l₂.map Prod.fst) : build_context l₁ = build_context l₂ := by
  unfold build_context
  exact foldl_fst_eq
    (fun a d => a ++ "\n--- Source ID: " ++ chunk_ref_id d ++ " ---\n" ++ d.page_content ++ "\n")
    l₁ l₂ "" h

set_option maxRecDepth 8192 in
/-- Claim C2 settled against the code: `process_query` is completely blind
to the similarity scores — two retrievals with the same candidates and
arbitrarily different scores produce identical outcomes (`best_score` is
computed and never read), and concretely a single candidate with score 0 is
still embedded in the generator prompt and the generated non-refusal answer
is surfaced; no confidence condition is ever checked. -/
theorem confidence_guardrail_missing :
    (∀ (sys_instr : String) (hist : HistMap) (session_id message : String)
        (l₁ l₂ : List (RetrievedDoc × Rat)) (gen : Except String RAGResponse),
        l₁.map Prod.fst = l₂.map Prod.fst →
        process_query sys_instr hist session_id message l₁ gen
          = process_query sys_instr hist session_id message l₂ gen) ∧
    ((process_query "" [] "s" "q"
        [(⟨"Totally unrelated text", "h0", 0, "doc.txt", none⟩, 0)]
        (Except.ok ⟨"t", "Fabricated answer", ["h0_0"], false⟩)).resp.is_refusal
        = false ∧
      (process_query "" [] "s" "q"
        [(⟨"Totally unrelated text", "h0", 0, "doc.txt", none⟩, 0)]
        (Except.ok ⟨"t", "Fabricated answer", ["h0_0"], false⟩)).resp.answer
        = "Fabricated answer" ∧
      ∃ pre post,
        (process_query "" [] "s" "q"
          [(⟨"Totally unrelated text", "h0", 0, "doc.txt", none⟩, 0)]
          (Except.ok ⟨"t", "Fabricated answer", ["h0_0"], false⟩)).prompt_sent
          = some (pre ++ "Totally unrelated text" ++ post)) := by
  constructor
  · intro sys_instr hist session_id message l₁ l₂ gen hmap
    cases l₁ with
    | nil =>
        have hl₂ : l₂ = [] := by
          cases l₂ with
          | nil => rfl
          | cons q t₂ => simp at hmap
        subst hl₂; rfl
    | cons p t =>
        cases l₂ with
        | nil => simp at hmap
        | cons q t₂ =>
            have hctx := build_context_fst (p :: t) (q :: t₂) hmap
            have hclf : citation_lookup (p :: t) = citation_lookup (q :: t₂) := by
              funext ref
              unfold citation_lookup
              rw [hmap]
            cases gen with
            | error e =>
                simp only [process_query, List.cons_ne_nil, if_false]
                rw [hctx]
            | ok r =>
                simp only [process_query, List.cons_ne_nil, if_false]
                rw [hctx, hclf]
  · refine ⟨rfl, rfl,
      "\n            " ++ "\n\n            CONVERSATION HISTORY:\n            " ++
        "\n\n            RETRIEVED CONTEXT:\n            " ++ "\n--- Source ID: h0_0 ---\n",
      "\n" ++ "\n\n            USER QUESTION: \n            q\n            ", ?_⟩
    decide

/-- Witness for C2's theorem: changing the one candidate's similarity score
from 1 to 0 changes nothing in the outcome. -/
theorem confidence_guardrail_missing_witness :
    process_query "" [] "s" "q" [(⟨"c", "h", 0, "f", none⟩, (1 : Rat))] (Except.error "x")
      = process_query "" [] "s" "q" [(⟨"c", "h", 0, "f", none⟩, (0 : Rat))]
          (Except.error "x") :=
  confidence_guardrail_missing.1 "" [] "s" "q"
    [(⟨"c", "h", 0, "f", none⟩, (1 : Rat))] [(⟨"c", "h", 0, "f", none⟩, (0 : Rat))]
    (Except.error "x") rfl

end NyxRag
